import Mathlib

/-!
Verification of the mcuboot Zephyr single-image loader
(`boot/zephyr/single_loader.c`).

The loader is embedded shallowly: every external collaborator (flash
accessor, cryptographic validator, trust-state store, RAM staging,
measured boot, shared data) is an oracle recorded in an `Env` value, and
each function of the source is a pure Lean function of the configuration
and the environment that returns its result together with the trace of
collaborator calls it performed.  Conditional compilation
(`MCUBOOT_VALIDATE_PRIMARY_SLOT`, `MCUBOOT_VALIDATE_PRIMARY_SLOT_ONCE`,
`MCUBOOT_RAM_LOAD`, `MCUBOOT_MEASURED_BOOT`, `MCUBOOT_DATA_SHARING`) is a
`Config` record, so that one Lean function covers every build.
-/

namespace SingleLoader

/-- Modelled from the spec: the fault-injection-hardened success sentinel
(`FIH_SUCCESS` of `bootutil/fault_injection_hardening.h`, a header not part
of this source tree).  The spec asks for "a specific non-trivial sentinel
value"; we use the value of mcuboot's hardened profile. -/
def FIH_SUCCESS : Int := 0x1AAAAAAA

/-- Modelled from the spec: the hardened failure sentinel (`FIH_FAILURE`). -/
def FIH_FAILURE : Int := 0x15555555

/-- Modelled from the spec: image-header flag bit for an AES-128 encrypted
payload (`IMAGE_F_ENCRYPTED_AES128` of `bootutil/image.h`, not in this
source tree; the spec only requires an encryption-flags field). -/
def IMAGE_F_ENCRYPTED_AES128 : Nat := 0x04

/-- Modelled from the spec: flag bit for an AES-256 encrypted payload
(`IMAGE_F_ENCRYPTED_AES256`). -/
def IMAGE_F_ENCRYPTED_AES256 : Nat := 0x08

/-- Modelled from the spec: the mask of all encryption flag bits
(`ENCRYPTIONFLAGS`). -/
def ENCRYPTIONFLAGS : Nat := IMAGE_F_ENCRYPTED_AES128 ||| IMAGE_F_ENCRYPTED_AES256

/-- The in-memory image header.  Only the flags word takes part in the
loader's own logic; the rest of the header is opaque payload handed to the
external validator, abstracted as `rest`. -/
structure image_header where
  ih_flags : Nat
  rest : Nat := 0
deriving Repr, DecidableEq

/-- Modelled from the spec: `IS_ENCRYPTED(hdr)` of `bootutil/image.h` —
the header indicates an encrypted payload. -/
def IS_ENCRYPTED (hdr : image_header) : Bool :=
  hdr.ih_flags &&& IMAGE_F_ENCRYPTED_AES128 ≠ 0 ||
  hdr.ih_flags &&& IMAGE_F_ENCRYPTED_AES256 ≠ 0

/-- The statement `hdr->ih_flags &= ~(ENCRYPTIONFLAGS)` on a `uint32_t` word. -/
def clearEncryptionFlags (hdr : image_header) : image_header :=
  { hdr with ih_flags := hdr.ih_flags &&& (0xFFFFFFFF ^^^ ENCRYPTIONFLAGS) }

/-- Modelled from the spec: trust-record magic value `GOOD`
(`BOOT_MAGIC_GOOD` of `bootutil_public.h`). -/
def BOOT_MAGIC_GOOD : Nat := 1

/-- Modelled from the spec: magic value for an uninitialized record
(`BOOT_MAGIC_UNSET`). -/
def BOOT_MAGIC_UNSET : Nat := 3

/-- Modelled from the spec: `image_ok` value `SET` (`BOOT_FLAG_SET`). -/
def BOOT_FLAG_SET : Nat := 1

/-- Modelled from the spec: `image_ok` value for an unset flag
(`BOOT_FLAG_UNSET`). -/
def BOOT_FLAG_UNSET : Nat := 3

/-- The persisted trust record (the fields of `struct boot_swap_state`
this loader consults). -/
structure boot_swap_state where
  magic : Nat
  image_ok : Nat
deriving Repr, DecidableEq

/-- One collaborator call performed by the loader, in program order. -/
inductive Event where
  | openArea
  | closeArea
  | loadHeader
  | ramLoad
  | ramUnload
  | readSwapState
  | callValidator (hdr : image_header)
  | writeMagic
  | writeImageOk
  | saveBootStatus
  | saveSharedData
deriving Repr, DecidableEq

/-- Holds exactly on `Event.callValidator` events. -/
def Event.isValidatorCall : Event → Bool
  | Event.callValidator _ => true
  | _ => false

/-- Holds exactly on trust-store write events. -/
def Event.isTrustWrite : Event → Bool
  | Event.writeMagic => true
  | Event.writeImageOk => true
  | _ => false

/-- Holds exactly on evidence-recording events. -/
def Event.isRecording : Event → Bool
  | Event.saveBootStatus => true
  | Event.saveSharedData => true
  | _ => false

/-- Holds exactly on the magic-marker write. -/
def Event.isMagicWrite : Event → Bool
  | Event.writeMagic => true
  | _ => false

/-- Holds exactly on the `image_ok` write. -/
def Event.isImageOkWrite : Event → Bool
  | Event.writeImageOk => true
  | _ => false

/-- Holds exactly on the SRAM unstage call. -/
def Event.isRamUnload : Event → Bool
  | Event.ramUnload => true
  | _ => false

/-- Holds exactly on flash-area close calls. -/
def Event.isClose : Event → Bool
  | Event.closeArea => true
  | _ => false

/-- Behaviour of every external collaborator during one boot attempt.
Return codes are the values the collaborators hand back; the validator is
a function of the header it is shown (the flash contents are fixed for
the attempt). -/
structure Env where
  img_validate : image_header → Int
  flash_open_rc : Int
  load_header_rc : Int
  loaded_hdr : image_header
  ram_load_rc : Int
  read_swap_rc : Int
  swap_state : boot_swap_state
  write_magic_rc : Int
  write_image_ok_rc : Int
  save_boot_status_rc : Int
  save_shared_data_rc : Int
  device_id : Nat
  area_off : Nat

/-- The build configuration: which `MCUBOOT_*` options are defined. -/
structure Config where
  validate_primary_slot : Bool
  validate_primary_slot_once : Bool
  ram_load : Bool
  measured_boot : Bool
  data_sharing : Bool
deriving Repr, DecidableEq

/-- Embeds `boot_image_validate`: clear the encryption flags when the header says
the payload is encrypted (no key is configured in this build), then hand
the (possibly rewritten) header to `bootutil_img_validate` and return its
verdict.  Result: (returned `fih_rc`, header after mutation, trace). -/
def boot_image_validate (env : Env) (hdr : image_header) :
    Int × image_header × List Event :=
  let hdr2 := if IS_ENCRYPTED hdr then clearEncryptionFlags hdr else hdr
  (env.img_validate hdr2, hdr2, [Event.callValidator hdr2])

/-- Embeds `boot_image_validate_once`: consult the persisted trust record; if it
already reads `{GOOD, SET}` skip validation, otherwise validate and, on
success, persist the magic (when not already `GOOD`) and then `image_ok`.
Result: (returned `fih_rc`, header after mutation, trace). -/
def boot_image_validate_once (env : Env) (hdr : image_header) :
    Int × image_header × List Event :=
  if env.read_swap_rc ≠ 0 then
    (FIH_FAILURE, hdr, [Event.readSwapState])
  else if env.swap_state.magic ≠ BOOT_MAGIC_GOOD ∨
          env.swap_state.image_ok ≠ BOOT_FLAG_SET then
    let v := boot_image_validate env hdr
    let tr0 := Event.readSwapState :: v.2.2
    if v.1 ≠ FIH_SUCCESS then
      (FIH_FAILURE, v.2.1, tr0)
    else if env.swap_state.magic ≠ BOOT_MAGIC_GOOD ∧ env.write_magic_rc ≠ 0 then
      (FIH_FAILURE, v.2.1, tr0 ++ [Event.writeMagic])
    else
      let tr1 := tr0 ++
        (if env.swap_state.magic ≠ BOOT_MAGIC_GOOD then [Event.writeMagic] else [])
      if env.write_image_ok_rc ≠ 0 then
        (FIH_FAILURE, v.2.1, tr1 ++ [Event.writeImageOk])
      else
        (FIH_SUCCESS, v.2.1, tr1 ++ [Event.writeImageOk])
  else
    (FIH_SUCCESS, hdr, [Event.readSwapState])

/-- The Authenticate step of `boot_go`: the `#ifdef` chain selects
always-validate, validate-once, or no validation (`fih_rc = FIH_SUCCESS`). -/
def authenticate (cfg : Config) (env : Env) (hdr : image_header) :
    Int × image_header × List Event :=
  if cfg.validate_primary_slot then boot_image_validate env hdr
  else if cfg.validate_primary_slot_once then boot_image_validate_once env hdr
  else (FIH_SUCCESS, hdr, [])

/-- How `boot_go` ends: `aborted` models a failed `assert` (the process
aborts and the function never returns), `ret r` a normal return of `r`. -/
inductive Outcome where
  | aborted
  | ret (r : Int)
deriving Repr, DecidableEq

/-- The boot response written through the caller's `struct boot_rsp *`. -/
structure boot_rsp where
  br_flash_dev_id : Nat
  br_image_off : Nat
  br_hdr : image_header
deriving Repr, DecidableEq

/-- Everything observable about one `boot_go` run: how it ended, whether
(and with what) the caller's response storage was written (`none` =
left untouched), and the trace of collaborator calls. -/
structure GoResult where
  outcome : Outcome
  rsp : Option boot_rsp
  trace : List Event
deriving Repr, DecidableEq

/-- Embeds `boot_go`: open the primary area (a failing open trips
`assert(rc == 0)` and aborts), load the header, optionally stage to SRAM,
authenticate per the configuration (unstaging on a failed check), record
measured-boot / shared data if configured (a nonzero `rc` there is
returned directly, bypassing the `out:` label), then fill the response
and fall through to `out:` where the flash area is closed. -/
def boot_go (cfg : Config) (env : Env) : GoResult :=
  if env.flash_open_rc ≠ 0 then
    { outcome := Outcome.aborted, rsp := none, trace := [Event.openArea] }
  else if env.load_header_rc ≠ 0 then
    { outcome := Outcome.ret FIH_FAILURE, rsp := none,
      trace := [Event.openArea, Event.loadHeader, Event.closeArea] }
  else
    let trPre := [Event.openArea, Event.loadHeader] ++
      (if cfg.ram_load then [Event.ramLoad] else [])
    if cfg.ram_load ∧ env.ram_load_rc ≠ 0 then
      { outcome := Outcome.ret FIH_FAILURE, rsp := none,
        trace := trPre ++ [Event.closeArea] }
    else
      let a := authenticate cfg env env.loaded_hdr
      let tr1 := trPre ++ a.2.2
      if a.1 ≠ FIH_SUCCESS then
        { outcome := Outcome.ret a.1, rsp := none,
          trace := tr1 ++ (if cfg.ram_load then [Event.ramUnload] else []) ++
            [Event.closeArea] }
      else if cfg.measured_boot ∧ env.save_boot_status_rc ≠ 0 then
        { outcome := Outcome.ret env.save_boot_status_rc, rsp := none,
          trace := tr1 ++ [Event.saveBootStatus] }
      else
        let tr2 := tr1 ++ (if cfg.measured_boot then [Event.saveBootStatus] else [])
        if cfg.data_sharing ∧ env.save_shared_data_rc ≠ 0 then
          { outcome := Outcome.ret env.save_shared_data_rc, rsp := none,
            trace := tr2 ++ [Event.saveSharedData] }
        else
          let tr3 := tr2 ++ (if cfg.data_sharing then [Event.saveSharedData] else [])
          { outcome := Outcome.ret FIH_SUCCESS,
            rsp := some { br_flash_dev_id := env.device_id,
                          br_image_off := env.area_off,
                          br_hdr := a.2.1 },
            trace := tr3 ++ [Event.closeArea] }

/-- Effect of one collaborator call on the persisted trust record
(`boot_write_magic` persists `GOOD`, `boot_write_image_ok` persists
`SET`; nothing else touches the store). -/
def applyEvent (st : boot_swap_state) : Event → boot_swap_state
  | Event.writeMagic => { st with magic := BOOT_MAGIC_GOOD }
  | Event.writeImageOk => { st with image_ok := BOOT_FLAG_SET }
  | _ => st

/-- Replay a trace against the persisted trust record. -/
def applyTrace (st : boot_swap_state) (tr : List Event) : boot_swap_state :=
  tr.foldl applyEvent st

/-- The trust record only moves from unset toward validated. -/
def upgradeOnly (st st2 : boot_swap_state) : Prop :=
  (st.magic = BOOT_MAGIC_GOOD → st2.magic = BOOT_MAGIC_GOOD) ∧
  (st.image_ok = BOOT_FLAG_SET → st2.image_ok = BOOT_FLAG_SET)

/-! Concrete environments and configurations used to evaluate the model. -/

/-- A benign environment: every collaborator succeeds, the validator
rejects, the trust record is uninitialized. -/
def envBase : Env :=
  { img_validate := fun _ => FIH_FAILURE
    flash_open_rc := 0
    load_header_rc := 0
    loaded_hdr := { ih_flags := 0 }
    ram_load_rc := 0
    read_swap_rc := 0
    swap_state := { magic := BOOT_MAGIC_UNSET, image_ok := BOOT_FLAG_UNSET }
    write_magic_rc := 0
    write_image_ok_rc := 0
    save_boot_status_rc := 0
    save_shared_data_rc := 0
    device_id := 7
    area_off := 4096 }

/-- An environment whose cryptographic validator accepts every header. -/
def envAcceptAll : Env := { envBase with img_validate := fun _ => FIH_SUCCESS }

/-- An encrypted header (AES-128 flag set). -/
def hdrEnc : image_header := { ih_flags := IMAGE_F_ENCRYPTED_AES128 }

/-- A plain, unencrypted header. -/
def hdrPlain : image_header := { ih_flags := 0 }

/-- Environment whose persisted trust record already reads `{GOOD, SET}`. -/
def envTrusted : Env :=
  { envBase with swap_state := { magic := BOOT_MAGIC_GOOD, image_ok := BOOT_FLAG_SET } }

/-- Environment with an accepting validator and a fresh (unset) record. -/
def envFresh : Env := envAcceptAll

/-- Environment with an accepting validator and a partially written record
(`magic = GOOD`, `image_ok` unset). -/
def envPartial : Env :=
  { envAcceptAll with
      swap_state := { magic := BOOT_MAGIC_GOOD, image_ok := BOOT_FLAG_UNSET } }

/-- Environment in which reading the swap state fails. -/
def envReadFail : Env := { envBase with read_swap_rc := -1 }

/-- Environment in which opening the flash area fails. -/
def envOpenFail : Env := { envBase with flash_open_rc := -1 }

/-- Environment in which recording the measured-boot status fails. -/
def envLeak : Env := { envBase with save_boot_status_rc := -1 }

/-- Build with measured boot only (no validation, no staging). -/
def cfgMeasured : Config :=
  { validate_primary_slot := false
    validate_primary_slot_once := false
    ram_load := false
    measured_boot := true
    data_sharing := false }

/-- Minimal build: no validation, no staging, no recording. -/
def cfgPlain : Config :=
  { validate_primary_slot := false
    validate_primary_slot_once := false
    ram_load := false
    measured_boot := false
    data_sharing := false }

/-! Helper lemmas shared by the claim theorems. -/

/-- Clearing the encryption flags leaves a header the loader no longer
regards as encrypted. -/
theorem IS_ENCRYPTED_clearEncryptionFlags (hdr : image_header) :
    IS_ENCRYPTED (clearEncryptionFlags hdr) = false := by
  have h4 : (0xFFFFFFFF ^^^ ENCRYPTIONFLAGS) &&& IMAGE_F_ENCRYPTED_AES128 = 0 := by
    decide
  have h8 : (0xFFFFFFFF ^^^ ENCRYPTIONFLAGS) &&& IMAGE_F_ENCRYPTED_AES256 = 0 := by
    decide
  simp [IS_ENCRYPTED, clearEncryptionFlags, Nat.and_assoc, h4, h8]

/-! Claim theorems. -/

/-- C1, counterexample: with the encryption flag set and no key configured,
`boot_image_validate` still returns the success sentinel when the external
validator accepts the flag-cleared header — the result is not independent
of the validator's verdict on that header. -/
theorem c1_counterexample :
    IS_ENCRYPTED hdrEnc = true ∧
    envAcceptAll.img_validate (clearEncryptionFlags hdrEnc) = FIH_SUCCESS ∧
    (boot_image_validate envAcceptAll hdrEnc).1 = FIH_SUCCESS := by
  decide

/-- C1, amended: for an encrypted header with no key configured,
`boot_image_validate` clears the encryption flags and returns exactly the
external validator's verdict on the flag-cleared header; hence it never
returns the success sentinel whenever the validator rejects that header,
and the validator is only ever shown a header no longer marked encrypted. -/
theorem c1_fail_closed_amended (env : Env) (hdr : image_header)
    (henc : IS_ENCRYPTED hdr = true)
    (hrej : env.img_validate (clearEncryptionFlags hdr) ≠ FIH_SUCCESS) :
    (boot_image_validate env hdr).1 ≠ FIH_SUCCESS ∧
    (boot_image_validate env hdr).1 = env.img_validate (clearEncryptionFlags hdr) ∧
    IS_ENCRYPTED (boot_image_validate env hdr).2.1 = false := by
  have hv : boot_image_validate env hdr =
      (env.img_validate (clearEncryptionFlags hdr), clearEncryptionFlags hdr,
       [Event.callValidator (clearEncryptionFlags hdr)]) := by
    simp [boot_image_validate, henc]
  rw [hv]
  exact ⟨hrej, rfl, IS_ENCRYPTED_clearEncryptionFlags hdr⟩

/-- C1, witness for the amended theorem at a concrete encrypted header and
a rejecting validator. -/
theorem c1_fail_closed_amended_witness :
    (boot_image_validate envBase hdrEnc).1 ≠ FIH_SUCCESS ∧
    (boot_image_validate envBase hdrEnc).1 =
      envBase.img_validate (clearEncryptionFlags hdrEnc) ∧
    IS_ENCRYPTED (boot_image_validate envBase hdrEnc).2.1 = false :=
  c1_fail_closed_amended envBase hdrEnc (by decide) (by decide)

/-- C2: in the measured-boot build, when `boot_save_boot_status` fails
after a (vacuously) successful Authenticate step, `boot_go` returns the
error code through the `return rc;` branch and never reaches the `out:`
label — the flash area that was opened is never closed, contradicting the
claim that the region is released exactly once on every branch. -/
theorem c2_measured_boot_leak :
    (boot_go cfgMeasured envLeak).trace.count Event.openArea = 1 ∧
    (boot_go cfgMeasured envLeak).trace.count Event.closeArea = 0 ∧
    (boot_go cfgMeasured envLeak).outcome = Outcome.ret (-1) := by
  decide

/-- C3: in validate-once mode, a trust record that reads back
`{GOOD, SET}` makes `boot_image_validate_once` return the success sentinel
after the single record read: no validator call and no trust-store write
appear in the trace. -/
theorem c3_trusted_skips_validation (env : Env) (hdr : image_header)
    (hrc : env.read_swap_rc = 0)
    (hm : env.swap_state.magic = BOOT_MAGIC_GOOD)
    (hok : env.swap_state.image_ok = BOOT_FLAG_SET) :
    boot_image_validate_once env hdr = (FIH_SUCCESS, hdr, [Event.readSwapState]) ∧
    ((boot_image_validate_once env hdr).2.2.countP
        (fun e => Event.isValidatorCall e) = 0 ∧
     (boot_image_validate_once env hdr).2.2.countP
        (fun e => Event.isTrustWrite e) = 0) := by
  have h : boot_image_validate_once env hdr =
      (FIH_SUCCESS, hdr, [Event.readSwapState]) := by
    simp [boot_image_validate_once, hrc, hm, hok]
  refine ⟨h, ?_, ?_⟩ <;> rw [h] <;> rfl

/-- C3, witness at a region whose stored record is `{GOOD, SET}`. -/
theorem c3_trusted_skips_validation_witness :
    boot_image_validate_once envTrusted hdrPlain =
      (FIH_SUCCESS, hdrPlain, [Event.readSwapState]) ∧
    ((boot_image_validate_once envTrusted hdrPlain).2.2.countP
        (fun e => Event.isValidatorCall e) = 0 ∧
     (boot_image_validate_once envTrusted hdrPlain).2.2.countP
        (fun e => Event.isTrustWrite e) = 0) :=
  c3_trusted_skips_validation envTrusted hdrPlain rfl rfl rfl

/-- C9: if reading the persisted swap state fails,
`boot_image_validate_once` returns the failure sentinel at once: the trace
holds only the record read — no validator call, no trust-store write. -/
theorem c9_swap_read_failure_rejects (env : Env) (hdr : image_header)
    (hrc : env.read_swap_rc ≠ 0) :
    boot_image_validate_once env hdr = (FIH_FAILURE, hdr, [Event.readSwapState]) ∧
    ((boot_image_validate_once env hdr).2.2.countP
        (fun e => Event.isValidatorCall e) = 0 ∧
     (boot_image_validate_once env hdr).2.2.countP
        (fun e => Event.isTrustWrite e) = 0) := by
  have h : boot_image_validate_once env hdr =
      (FIH_FAILURE, hdr, [Event.readSwapState]) := by
    simp [boot_image_validate_once, hrc]
  refine ⟨h, ?_, ?_⟩ <;> rw [h] <;> rfl

/-- C4: an execution of `boot_image_validate_once` whose cryptographic
validation does not return the success sentinel performs no `image_ok`
write, and replaying its trace against the stored record never clears a
`GOOD` magic nor an already-`SET` flag: the record only moves from unset
toward validated. -/
theorem c4_trust_record_monotone (env : Env) (hdr : image_header)
    (hval : (boot_image_validate env hdr).1 ≠ FIH_SUCCESS) :
    (boot_image_validate_once env hdr).2.2.countP
        (fun e => Event.isImageOkWrite e) = 0 ∧
    upgradeOnly env.swap_state
      (applyTrace env.swap_state (boot_image_validate_once env hdr).2.2) := by
  have hval2 : env.img_validate
      (if IS_ENCRYPTED hdr then clearEncryptionFlags hdr else hdr) ≠ FIH_SUCCESS :=
    hval
  unfold boot_image_validate_once
  by_cases h1 : env.read_swap_rc = 0
  · by_cases h2 : env.swap_state.magic ≠ BOOT_MAGIC_GOOD ∨
        env.swap_state.image_ok ≠ BOOT_FLAG_SET
    · simp [h1, h2, boot_image_validate, hval2, applyTrace, applyEvent,
        upgradeOnly, Event.isImageOkWrite]
    · simp [h1, h2, applyTrace, applyEvent, upgradeOnly]
      rfl
  · simp [h1, applyTrace, applyEvent, upgradeOnly]
    rfl

/-- C4, witness at a rejecting validator over a fresh record. -/
theorem c4_trust_record_monotone_witness :
    (boot_image_validate_once envBase hdrPlain).2.2.countP
        (fun e => Event.isImageOkWrite e) = 0 ∧
    upgradeOnly envBase.swap_state
      (applyTrace envBase.swap_state (boot_image_validate_once envBase hdrPlain).2.2) :=
  c4_trust_record_monotone envBase hdrPlain (by decide)

/-- C5: after a successful validation of an unverified region, the
trust-store writes in the trace are exactly the magic write (present iff
the read-back magic was not `GOOD`) followed by the `image_ok` write
(absent when the needed magic write failed), and if either needed write
returns a nonzero code the attempt returns the failure sentinel. -/
theorem c5_write_order_and_failure (env : Env) (hdr : image_header)
    (hrc : env.read_swap_rc = 0)
    (hunv : env.swap_state.magic ≠ BOOT_MAGIC_GOOD ∨
            env.swap_state.image_ok ≠ BOOT_FLAG_SET)
    (hval : (boot_image_validate env hdr).1 = FIH_SUCCESS) :
    (boot_image_validate_once env hdr).2.2.filter (fun e => Event.isTrustWrite e) =
      (if env.swap_state.magic ≠ BOOT_MAGIC_GOOD then [Event.writeMagic] else []) ++
      (if env.swap_state.magic ≠ BOOT_MAGIC_GOOD ∧ env.write_magic_rc ≠ 0 then []
       else [Event.writeImageOk]) ∧
    ((env.swap_state.magic ≠ BOOT_MAGIC_GOOD ∧ env.write_magic_rc ≠ 0) ∨
        env.write_image_ok_rc ≠ 0 →
      (boot_image_validate_once env hdr).1 = FIH_FAILURE) := by
  have hval2 : env.img_validate
      (if IS_ENCRYPTED hdr then clearEncryptionFlags hdr else hdr) = FIH_SUCCESS :=
    hval
  unfold boot_image_validate_once
  by_cases hm : env.swap_state.magic = BOOT_MAGIC_GOOD
  · have himg : env.swap_state.image_ok ≠ BOOT_FLAG_SET :=
      hunv.resolve_left (fun h => h hm)
    by_cases hw : env.write_image_ok_rc = 0
    · simp [hrc, himg, boot_image_validate, hval2, hm, hw, Event.isTrustWrite]
    · simp [hrc, himg, boot_image_validate, hval2, hm, hw, Event.isTrustWrite]
  · by_cases hwm : env.write_magic_rc = 0
    · by_cases hw : env.write_image_ok_rc = 0 <;>
        simp [hrc, hunv, boot_image_validate, hval2, hm, hwm, hw, Event.isTrustWrite]
    · simp [hrc, hunv, boot_image_validate, hval2, hm, hwm, Event.isTrustWrite]

/-- C5, witness: fresh record, accepting validator, writes succeed. -/
theorem c5_write_order_and_failure_witness :
    (boot_image_validate_once envFresh hdrPlain).2.2.filter
        (fun e => Event.isTrustWrite e) =
      (if envFresh.swap_state.magic ≠ BOOT_MAGIC_GOOD then [Event.writeMagic]
       else []) ++
      (if envFresh.swap_state.magic ≠ BOOT_MAGIC_GOOD ∧
          envFresh.write_magic_rc ≠ 0 then []
       else [Event.writeImageOk]) ∧
    ((envFresh.swap_state.magic ≠ BOOT_MAGIC_GOOD ∧ envFresh.write_magic_rc ≠ 0) ∨
        envFresh.write_image_ok_rc ≠ 0 →
      (boot_image_validate_once envFresh hdrPlain).1 = FIH_FAILURE) :=
  c5_write_order_and_failure envFresh hdrPlain rfl (by decide) (by decide)

/-- C10: a partially written record (`magic = GOOD`, `image_ok` unset) is
treated as unverified: the validator runs exactly once and, on success
with a succeeding `image_ok` write, only `image_ok` is written (the magic
marker is not rewritten), the attempt succeeds, and the record replays to
`{GOOD, SET}` — the partial-write state recovers on the next boot. -/
theorem c10_partial_record_recovery (env : Env) (hdr : image_header)
    (hrc : env.read_swap_rc = 0)
    (hm : env.swap_state.magic = BOOT_MAGIC_GOOD)
    (hok : env.swap_state.image_ok ≠ BOOT_FLAG_SET)
    (hval : (boot_image_validate env hdr).1 = FIH_SUCCESS)
    (hw : env.write_image_ok_rc = 0) :
    (boot_image_validate_once env hdr).1 = FIH_SUCCESS ∧
    (boot_image_validate_once env hdr).2.2.countP
        (fun e => Event.isValidatorCall e) = 1 ∧
    (boot_image_validate_once env hdr).2.2.countP
        (fun e => Event.isMagicWrite e) = 0 ∧
    (boot_image_validate_once env hdr).2.2.countP
        (fun e => Event.isImageOkWrite e) = 1 ∧
    applyTrace env.swap_state (boot_image_validate_once env hdr).2.2 =
      { magic := BOOT_MAGIC_GOOD, image_ok := BOOT_FLAG_SET } := by
  have hval2 : env.img_validate
      (if IS_ENCRYPTED hdr then clearEncryptionFlags hdr else hdr) = FIH_SUCCESS :=
    hval
  unfold boot_image_validate_once
  simp [hrc, hm, hok, hval2, hw, boot_image_validate, applyTrace, applyEvent,
    Event.isValidatorCall, Event.isMagicWrite, Event.isImageOkWrite]

/-- C10, witness at a concrete partially written record. -/
theorem c10_partial_record_recovery_witness :
    (boot_image_validate_once envPartial hdrPlain).1 = FIH_SUCCESS ∧
    (boot_image_validate_once envPartial hdrPlain).2.2.countP
        (fun e => Event.isValidatorCall e) = 1 ∧
    (boot_image_validate_once envPartial hdrPlain).2.2.countP
        (fun e => Event.isMagicWrite e) = 0 ∧
    (boot_image_validate_once envPartial hdrPlain).2.2.countP
        (fun e => Event.isImageOkWrite e) = 1 ∧
    applyTrace envPartial.swap_state
        (boot_image_validate_once envPartial hdrPlain).2.2 =
      { magic := BOOT_MAGIC_GOOD, image_ok := BOOT_FLAG_SET } :=
  c10_partial_record_recovery envPartial hdrPlain rfl rfl (by decide) (by decide) rfl

/-- C9, witness at a concrete environment whose record read fails. -/
theorem c9_swap_read_failure_rejects_witness :
    boot_image_validate_once envReadFail hdrPlain =
      (FIH_FAILURE, hdrPlain, [Event.readSwapState]) ∧
    ((boot_image_validate_once envReadFail hdrPlain).2.2.countP
        (fun e => Event.isValidatorCall e) = 0 ∧
     (boot_image_validate_once envReadFail hdrPlain).2.2.countP
        (fun e => Event.isTrustWrite e) = 0) :=
  c9_swap_read_failure_rejects envReadFail hdrPlain (by decide)

/-- The fault-hardened verifier never unstages anything. -/
theorem validate_no_unload (env : Env) (hdr : image_header) :
    (boot_image_validate env hdr).2.2.countP (fun e => Event.isRamUnload e) = 0 :=
  rfl

/-- The one-time trust cache never unstages anything. -/
theorem validate_once_no_unload (env : Env) (hdr : image_header) :
    (boot_image_validate_once env hdr).2.2.countP
      (fun e => Event.isRamUnload e) = 0 := by
  by_cases h1 : env.read_swap_rc = 0
  · by_cases h2 : env.swap_state.magic ≠ BOOT_MAGIC_GOOD ∨
        env.swap_state.image_ok ≠ BOOT_FLAG_SET
    · by_cases hv : env.img_validate
          (if IS_ENCRYPTED hdr then clearEncryptionFlags hdr else hdr) = FIH_SUCCESS
      · by_cases hm : env.swap_state.magic ≠ BOOT_MAGIC_GOOD ∧
            env.write_magic_rc ≠ 0
        · simp [boot_image_validate_once, boot_image_validate, h1, h2, hv, hm,
            Event.isRamUnload]
        · by_cases hw : env.write_image_ok_rc = 0 <;>
            simp [boot_image_validate_once, boot_image_validate, h1, h2, hv, hm,
              hw, Event.isRamUnload]
      · simp [boot_image_validate_once, boot_image_validate, h1, h2, hv,
          Event.isRamUnload]
    · simp [boot_image_validate_once, h1, h2, Event.isRamUnload]
  · simp [boot_image_validate_once, h1, Event.isRamUnload]

/-- The Authenticate step never unstages anything. -/
theorem authenticate_no_unload (cfg : Config) (env : Env) (hdr : image_header) :
    (authenticate cfg env hdr).2.2.countP (fun e => Event.isRamUnload e) = 0 := by
  unfold authenticate
  split_ifs
  · exact validate_no_unload env hdr
  · exact validate_once_no_unload env hdr
  · rfl

/-- C7: a failing `flash_area_open` trips `assert(rc == 0)` and the
attempt aborts with nothing but the open in its trace: no header load, no
staging, no validation, no recording, and no response assembly happen,
and the caller's response storage stays untouched. -/
theorem c7_open_failure_aborts (cfg : Config) (env : Env)
    (h : env.flash_open_rc ≠ 0) :
    boot_go cfg env =
      { outcome := Outcome.aborted, rsp := none, trace := [Event.openArea] } := by
  simp [boot_go, h]

/-- C7, witness at a concrete failing open. -/
theorem c7_open_failure_aborts_witness :
    boot_go cfgPlain envOpenFail =
      { outcome := Outcome.aborted, rsp := none, trace := [Event.openArea] } :=
  c7_open_failure_aborts cfgPlain envOpenFail (by decide)

/-- C6: provided the evidence-recording error codes are not the success
sentinel (all real error codes are small nonzero values), the caller's
response storage is written if and only if `boot_go` returns the success
sentinel; on every other outcome it is left unmodified. -/
theorem c6_response_iff_success (cfg : Config) (env : Env)
    (hs1 : env.save_boot_status_rc ≠ FIH_SUCCESS)
    (hs2 : env.save_shared_data_rc ≠ FIH_SUCCESS) :
    ((boot_go cfg env).rsp.isSome ↔
      (boot_go cfg env).outcome = Outcome.ret FIH_SUCCESS) ∧
    ((boot_go cfg env).outcome ≠ Outcome.ret FIH_SUCCESS →
      (boot_go cfg env).rsp = none) := by
  by_cases h1 : env.flash_open_rc = 0
  case neg => simp [boot_go, h1]
  by_cases h2 : env.load_header_rc = 0
  case neg => simp [boot_go, h1, h2, FIH_SUCCESS, FIH_FAILURE]
  by_cases h3 : cfg.ram_load = true ∧ env.ram_load_rc ≠ 0
  case pos => simp [boot_go, h1, h2, h3, FIH_SUCCESS, FIH_FAILURE]
  by_cases h4 : (authenticate cfg env env.loaded_hdr).1 = FIH_SUCCESS
  case neg => simp [boot_go, h1, h2, h3, h4]
  by_cases h5 : cfg.measured_boot = true ∧ env.save_boot_status_rc ≠ 0
  case pos => simp [boot_go, h1, h2, h3, h4, h5, hs1]
  by_cases h6 : cfg.data_sharing = true ∧ env.save_shared_data_rc ≠ 0
  case pos => simp [boot_go, h1, h2, h3, h4, h5, h6, hs2]
  simp [boot_go, h1, h2, h3, h4, h5, h6]

/-- C6, witness at a minimal build over a benign environment. -/
theorem c6_response_iff_success_witness :
    ((boot_go cfgPlain envBase).rsp.isSome ↔
      (boot_go cfgPlain envBase).outcome = Outcome.ret FIH_SUCCESS) ∧
    ((boot_go cfgPlain envBase).outcome ≠ Outcome.ret FIH_SUCCESS →
      (boot_go cfgPlain envBase).rsp = none) :=
  c6_response_iff_success cfgPlain envBase (by decide) (by decide)

/-- C8: when the Authenticate step has returned the success sentinel and a
configured measured-boot or shared-data recording step fails, `boot_go`
returns that step's error code (the failure is reported to the caller),
but the granted trust decision stands: the staged copy is never removed,
the cryptographic validator is not called beyond the Authenticate step,
and no trust-store write beyond the Authenticate step occurs. -/
theorem c8_recording_failure_preserves_trust (cfg : Config) (env : Env)
    (hopen : env.flash_open_rc = 0)
    (hload : env.load_header_rc = 0)
    (hram : ¬(cfg.ram_load = true ∧ env.ram_load_rc ≠ 0))
    (hauth : (authenticate cfg env env.loaded_hdr).1 = FIH_SUCCESS)
    (hrec : (cfg.measured_boot = true ∧ env.save_boot_status_rc ≠ 0) ∨
            (cfg.data_sharing = true ∧
             (cfg.measured_boot = true → env.save_boot_status_rc = 0) ∧
             env.save_shared_data_rc ≠ 0)) :
    ((boot_go cfg env).outcome = Outcome.ret env.save_boot_status_rc ∨
     (boot_go cfg env).outcome = Outcome.ret env.save_shared_data_rc) ∧
    (boot_go cfg env).trace.countP (fun e => Event.isRamUnload e) = 0 ∧
    (boot_go cfg env).trace.countP (fun e => Event.isValidatorCall e) =
      (authenticate cfg env env.loaded_hdr).2.2.countP
        (fun e => Event.isValidatorCall e) ∧
    (boot_go cfg env).trace.countP (fun e => Event.isTrustWrite e) =
      (authenticate cfg env env.loaded_hdr).2.2.countP
        (fun e => Event.isTrustWrite e) := by
  have hnu := authenticate_no_unload cfg env env.loaded_hdr
  unfold boot_go
  rcases hrec with ⟨hm, hrc⟩ | ⟨hd, hms, hrc⟩
  · by_cases hr : cfg.ram_load = true <;>
      simp_all [List.countP_append, Event.isValidatorCall, Event.isTrustWrite,
        Event.isRamUnload]
  · by_cases hr : cfg.ram_load = true <;>
      by_cases hmb : cfg.measured_boot = true <;>
      simp_all [List.countP_append, Event.isValidatorCall, Event.isTrustWrite,
        Event.isRamUnload]

/-- C8, witness: measured-boot build, recording fails after a (vacuously
successful) Authenticate step. -/
theorem c8_recording_failure_preserves_trust_witness :
    ((boot_go cfgMeasured envLeak).outcome =
        Outcome.ret envLeak.save_boot_status_rc ∨
     (boot_go cfgMeasured envLeak).outcome =
        Outcome.ret envLeak.save_shared_data_rc) ∧
    (boot_go cfgMeasured envLeak).trace.countP
        (fun e => Event.isRamUnload e) = 0 ∧
    (boot_go cfgMeasured envLeak).trace.countP
        (fun e => Event.isValidatorCall e) =
      (authenticate cfgMeasured envLeak envLeak.loaded_hdr).2.2.countP
        (fun e => Event.isValidatorCall e) ∧
    (boot_go cfgMeasured envLeak).trace.countP
        (fun e => Event.isTrustWrite e) =
      (authenticate cfgMeasured envLeak envLeak.loaded_hdr).2.2.countP
        (fun e => Event.isTrustWrite e) :=
  c8_recording_failure_preserves_trust cfgMeasured envLeak rfl rfl
    (by decide) rfl (Or.inl ⟨rfl, by decide⟩)

end SingleLoader
